import Mathlib

/-!
Verification of the latency-record store in
`PROJECT_NETWORK_LAT_TEST/PROJECT_CODE.py`.

The Python module defines a value class `LatencyTestRecord` (source,
latency, test_time) and a store `DataStorage` holding a list of records
with operations `add_record`, `get_record`, `modify_record`,
`remove_record`, `display_all`.  Below is a shallow embedding: each
method becomes a pure Lean function over the store state, mirroring the
Python line by line.  Python list indexing that would raise `IndexError`
is modelled by an explicit out-of-range branch (`Option`, or the
`accessError` constructor), so that "no out-of-range access happens" is
a provable statement rather than an artifact of total Lean functions.
-/

/-- Colorama colour code `Fore.RED`, as emitted by the source. -/
def Fore_RED : String := "\x1b[31m"

/-- Colorama colour code `Style.RESET_ALL`, as emitted by the source. -/
def Style_RESET_ALL : String := "\x1b[0m"

/-- A Python value that can be passed as the `test_time` argument of
`LatencyTestRecord.__init__` (default `None`).  We model the three kinds
the program can meet: `None`, a `datetime` object (carrying an abstract
tick), and a plain integer timestamp. -/
inductive PyTimeVal where
  | noneV : PyTimeVal
  | dt (t : Nat) : PyTimeVal
  | intV (n : Int) : PyTimeVal
deriving DecidableEq

/-- Python truthiness of a `test_time` value: `None` is falsy, a
`datetime` object is always truthy, an `int` is truthy iff nonzero. -/
def PyTimeVal.truthy : PyTimeVal → Bool
  | PyTimeVal.noneV => false
  | PyTimeVal.dt _ => true
  | PyTimeVal.intV n => n != 0

/-- The field content of a `LatencyTestRecord` object. -/
structure LatencyTestRecord where
  source : String
  latency : Int
  test_time : PyTimeVal
deriving DecidableEq

/-- `LatencyTestRecord.__init__`: sets `source` and `latency`, and
`self.test_time = test_time if test_time else datetime.now()`.  Note the
source tests *truthiness* of `test_time`, not whether it was supplied.
`now` is the value `datetime.now()` would return at construction time. -/
def LatencyTestRecord.init (source : String) (latency : Int)
    (test_time : PyTimeVal) (now : Nat) : LatencyTestRecord :=
  { source := source, latency := latency,
    test_time := if test_time.truthy then test_time else PyTimeVal.dt now }

/-- A `LatencyTestRecord` *object*: its field content plus its object
identity.  The class defines no `__eq__`, so Python `==` on two such
objects falls back to identity comparison. -/
structure PyRecordObj where
  oid : Nat
  fields : LatencyTestRecord
deriving DecidableEq

/-- Python `==` on two `LatencyTestRecord` objects: with no `__eq__`
defined by the class, this is object identity. -/
def recordEq (a b : PyRecordObj) : Bool := a.oid == b.oid

/-- A sequence of `LatencyTestRecord(...)` constructor calls, starting
from allocation id `n`: each call allocates a fresh object. -/
def allocRecords (n : Nat) :
    List (String × Int × PyTimeVal × Nat) → List PyRecordObj
  | [] => []
  | a :: rest =>
      ⟨n, LatencyTestRecord.init a.1 a.2.1 a.2.2.1 a.2.2.2⟩ ::
        allocRecords (n + 1) rest

/-- The store: `self.records = []`, an ordered Python list of records. -/
structure DataStorage where
  records : List LatencyTestRecord
deriving DecidableEq

/-- The sentinel display string `get_record` returns when the index is
out of range: `f"{Fore.RED}Record not found{Style.RESET_ALL}"`. -/
def DataStorage.sentinel : String :=
  Fore_RED ++ "Record not found" ++ Style_RESET_ALL

/-- The value `DataStorage.get_record` returns: either a record, or the
sentinel not-found string.  `accessError` marks an out-of-range raw list
access (a Python `IndexError`); it is proved unreachable. -/
inductive GetResult where
  | found (r : LatencyTestRecord) : GetResult
  | notFoundMsg (msg : String) : GetResult
  | accessError : GetResult
deriving DecidableEq

/-- `add_record`: `self.records.append(record)`. -/
def DataStorage.add_record (s : DataStorage) (record : LatencyTestRecord) :
    DataStorage :=
  { records := s.records ++ [record] }

/-- `get_record`:
`return self.records[idx] if 0 <= idx < len(self.records) else f"...Record not found..."`.
The result pairs the returned value with the store after the call (the
method body contains no assignment to `self`). -/
def DataStorage.get_record (s : DataStorage) (idx : Int) :
    GetResult × DataStorage :=
  if 0 ≤ idx ∧ idx < (s.records.length : Int) then
    (match s.records[idx.toNat]? with
      | some r => GetResult.found r
      | none => GetResult.accessError, s)
  else
    (GetResult.notFoundMsg DataStorage.sentinel, s)

/-- `modify_record`: if `0 <= idx < len(self.records)` then
`self.records[idx] = new_record; return True` else `return False`.
The inner bounds test models the `IndexError` a raw list assignment
would raise (`none`); it is proved unreachable. -/
def DataStorage.modify_record (s : DataStorage) (idx : Int)
    (new_record : LatencyTestRecord) : Option (Bool × DataStorage) :=
  if 0 ≤ idx ∧ idx < (s.records.length : Int) then
    if idx.toNat < s.records.length then
      some (true, { records := s.records.set idx.toNat new_record })
    else none
  else
    some (false, s)

/-- `remove_record`: if `0 <= idx < len(self.records)` then
`self.records.pop(idx); return True` else `return False`.  The inner
bounds test models the `IndexError` a raw `pop` would raise (`none`);
it is proved unreachable. -/
def DataStorage.remove_record (s : DataStorage) (idx : Int) :
    Option (Bool × DataStorage) :=
  if 0 ≤ idx ∧ idx < (s.records.length : Int) then
    if idx.toNat < s.records.length then
      some (true, { records := s.records.eraseIdx idx.toNat })
    else none
  else
    some (false, s)

/-- What `display_all` prints: the distinct "No records available."
message, or one `[idx] record` line per record, produced by
`enumerate(self.records)`. -/
inductive DisplayResult where
  | noRecords : DisplayResult
  | listing (lines : List (Nat × LatencyTestRecord)) : DisplayResult
deriving DecidableEq

/-- `display_all`: `if not self.records: print("No records available.")
else: for idx, record in enumerate(self.records): print(...)`. -/
def DataStorage.display_all (s : DataStorage) : DisplayResult :=
  if s.records.isEmpty then DisplayResult.noRecords
  else DisplayResult.listing s.records.enum

/-- A concrete record used to instantiate the theorems below. -/
def demoRecord : LatencyTestRecord := ⟨"NYC", 42, PyTimeVal.dt 0⟩

/-- A concrete one-record store used to instantiate the theorems below. -/
def demoStore : DataStorage := ⟨[demoRecord]⟩

/-- Claim C1: for every store and index `idx`, `get_record idx` returns
the record stored at position `idx` when `0 ≤ idx < len(records)`, and
otherwise returns the not-found sentinel, which is never a record. -/
theorem get_record_in_range_or_not_found (s : DataStorage) (idx : Int) :
    (0 ≤ idx ∧ idx < (s.records.length : Int) →
      ∃ r, s.records[idx.toNat]? = some r ∧
        (s.get_record idx).1 = GetResult.found r) ∧
    (¬ (0 ≤ idx ∧ idx < (s.records.length : Int)) →
      (s.get_record idx).1 = GetResult.notFoundMsg DataStorage.sentinel ∧
      ∀ r, (s.get_record idx).1 ≠ GetResult.found r) := by
  constructor
  · intro h
    obtain ⟨h1, h2⟩ := h
    have hlt : idx.toNat < s.records.length := by omega
    have hsome : s.records[idx.toNat]? = some (s.records.get ⟨idx.toNat, hlt⟩) := by
      simp [List.getElem?_eq_getElem hlt, List.get_eq_getElem]
    refine ⟨s.records.get ⟨idx.toNat, hlt⟩, hsome, ?_⟩
    simp [DataStorage.get_record, h1, h2, hsome]
  · intro h
    refine ⟨?_, ?_⟩
    · simp [DataStorage.get_record, h]
    · intro r
      simp [DataStorage.get_record, h]

/-- Claim C1, instantiated: on the one-record store, `get_record 0`
returns the stored record and `get_record 5` returns the sentinel. -/
theorem get_record_in_range_or_not_found_witness :
    (∃ r, demoStore.records[(0 : Int).toNat]? = some r ∧
      (demoStore.get_record 0).1 = GetResult.found r) ∧
    ((demoStore.get_record 5).1 = GetResult.notFoundMsg DataStorage.sentinel ∧
      ∀ r, (demoStore.get_record 5).1 ≠ GetResult.found r) :=
  ⟨(get_record_in_range_or_not_found demoStore 0).1 (by constructor <;> decide),
   (get_record_in_range_or_not_found demoStore 5).2 (by decide)⟩

/-- Claim C7: no store operation performs an out-of-range access into
the record list: `get_record` never hits the `IndexError` branch, and
`modify_record` / `remove_record` never hit theirs (`add_record` and
`display_all` perform no index dereference at all). -/
theorem store_ops_never_access_out_of_range (s : DataStorage) (idx : Int)
    (r : LatencyTestRecord) :
    (s.get_record idx).1 ≠ GetResult.accessError ∧
    s.modify_record idx r ≠ none ∧
    s.remove_record idx ≠ none := by
  by_cases hc : 0 ≤ idx ∧ idx < (s.records.length : Int)
  · obtain ⟨h1, h2⟩ := hc
    have hlt : idx.toNat < s.records.length := by omega
    have hsome : s.records[idx.toNat]? = some (s.records.get ⟨idx.toNat, hlt⟩) := by
      simp [List.getElem?_eq_getElem hlt, List.get_eq_getElem]
    refine ⟨?_, ?_, ?_⟩ <;>
      simp [DataStorage.get_record, DataStorage.modify_record,
        DataStorage.remove_record, h1, h2, hlt, hsome]
  · refine ⟨?_, ?_, ?_⟩ <;>
      simp [DataStorage.get_record, DataStorage.modify_record,
        DataStorage.remove_record, hc]

/-- Claim C7, instantiated on concrete in-range and out-of-range calls. -/
theorem store_ops_never_access_out_of_range_witness :
    ((demoStore.get_record 0).1 ≠ GetResult.accessError ∧
      demoStore.modify_record 0 demoRecord ≠ none ∧
      demoStore.remove_record 0 ≠ none) ∧
    ((demoStore.get_record 7).1 ≠ GetResult.accessError ∧
      demoStore.modify_record 7 demoRecord ≠ none ∧
      demoStore.remove_record 7 ≠ none) :=
  ⟨store_ops_never_access_out_of_range demoStore 0 demoRecord,
   store_ops_never_access_out_of_range demoStore 7 demoRecord⟩

/-- Claim C9: a negative index is rejected by the `0 <= idx` bound:
`get_record` returns the sentinel, `modify_record` and `remove_record`
return `False` and leave the store unchanged; negative indices never
address records from the end of the list. -/
theorem negative_index_rejected (s : DataStorage) (idx : Int)
    (r : LatencyTestRecord) (h : idx < 0) :
    (s.get_record idx).1 = GetResult.notFoundMsg DataStorage.sentinel ∧
    s.modify_record idx r = some (false, s) ∧
    s.remove_record idx = some (false, s) := by
  have hc : ¬ (0 ≤ idx ∧ idx < (s.records.length : Int)) := by omega
  refine ⟨?_, ?_, ?_⟩ <;>
    simp [DataStorage.get_record, DataStorage.modify_record,
      DataStorage.remove_record, hc]

/-- Claim C9, instantiated at index `-1` on the one-record store (where
Python's raw `records[-1]` would have returned the last record). -/
theorem negative_index_rejected_witness :
    (demoStore.get_record (-1)).1 = GetResult.notFoundMsg DataStorage.sentinel ∧
    demoStore.modify_record (-1) demoRecord = some (false, demoStore) ∧
    demoStore.remove_record (-1) = some (false, demoStore) :=
  negative_index_rejected demoStore (-1) demoRecord (by decide)

/-- Claim C10: `get_record` never mutates the store: for every store and
every index, in range or not, the store after the call is the store
before it. -/
theorem get_record_leaves_store_unchanged (s : DataStorage) (idx : Int) :
    (s.get_record idx).2 = s := by
  unfold DataStorage.get_record
  split <;> rfl

/-- Claim C10, instantiated on concrete in-range and out-of-range calls. -/
theorem get_record_leaves_store_unchanged_witness :
    (demoStore.get_record 0).2 = demoStore ∧
    (demoStore.get_record 99).2 = demoStore :=
  ⟨get_record_leaves_store_unchanged demoStore 0,
   get_record_leaves_store_unchanged demoStore 99⟩

/-- Claim C4: on a valid index, `modify_record` returns `True` and a
subsequent `get_record` at that index returns the new record, with the
store length unchanged and every other position untouched; on an
invalid index it returns `False` with the store exactly as before. -/
theorem modify_record_spec (s : DataStorage) (idx : Int)
    (r : LatencyTestRecord) :
    (0 ≤ idx ∧ idx < (s.records.length : Int) →
      ∃ s2, s.modify_record idx r = some (true, s2) ∧
        (s2.get_record idx).1 = GetResult.found r ∧
        s2.records.length = s.records.length ∧
        ∀ j : Nat, j ≠ idx.toNat → s2.records[j]? = s.records[j]?) ∧
    (¬ (0 ≤ idx ∧ idx < (s.records.length : Int)) →
      s.modify_record idx r = some (false, s)) := by
  constructor
  · rintro ⟨h1, h2⟩
    have hlt : idx.toNat < s.records.length := by omega
    refine ⟨⟨s.records.set idx.toNat r⟩, ?_, ?_, ?_, ?_⟩
    · simp [DataStorage.modify_record, h1, h2, hlt]
    · simp [DataStorage.get_record, List.length_set, h1, h2,
        List.getElem?_set_self hlt]
    · exact List.length_set s.records idx.toNat r
    · intro j hj
      exact List.getElem?_set_ne (fun he => hj he.symm)
  · intro h
    simp [DataStorage.modify_record, h]

/-- Claim C4, instantiated: replacing index 0 of the one-record store
succeeds and a later `get_record 0` returns the new record; replacing
index 3 fails and returns the store unchanged. -/
theorem modify_record_spec_witness :
    (∃ s2, demoStore.modify_record 0 ⟨"LA", 10, PyTimeVal.dt 1⟩ =
        some (true, s2) ∧
      (s2.get_record 0).1 = GetResult.found ⟨"LA", 10, PyTimeVal.dt 1⟩ ∧
      s2.records.length = demoStore.records.length ∧
      ∀ j : Nat, j ≠ (0 : Int).toNat → s2.records[j]? = demoStore.records[j]?) ∧
    demoStore.modify_record 3 ⟨"LA", 10, PyTimeVal.dt 1⟩ = some (false, demoStore) :=
  ⟨(modify_record_spec demoStore 0 ⟨"LA", 10, PyTimeVal.dt 1⟩).1
      (by constructor <;> decide),
   (modify_record_spec demoStore 3 ⟨"LA", 10, PyTimeVal.dt 1⟩).2 (by decide)⟩

/-- Claim C5: on a valid index, `remove_record` returns `True`, the
length drops by exactly one, positions before the index are unchanged
and positions from the index on shift down by one; on an invalid index
it returns `False` with the store exactly as before. -/
theorem remove_record_spec (s : DataStorage) (idx : Int) :
    (0 ≤ idx ∧ idx < (s.records.length : Int) →
      ∃ s2, s.remove_record idx = some (true, s2) ∧
        s2.records.length + 1 = s.records.length ∧
        (∀ j : Nat, j < idx.toNat → s2.records[j]? = s.records[j]?) ∧
        (∀ j : Nat, idx.toNat ≤ j → s2.records[j]? = s.records[j + 1]?)) ∧
    (¬ (0 ≤ idx ∧ idx < (s.records.length : Int)) →
      s.remove_record idx = some (false, s)) := by
  constructor
  · rintro ⟨h1, h2⟩
    have hlt : idx.toNat < s.records.length := by omega
    refine ⟨⟨s.records.eraseIdx idx.toNat⟩, ?_, ?_, ?_, ?_⟩
    · simp [DataStorage.remove_record, h1, h2, hlt]
    · have hlen := List.length_eraseIdx_of_lt hlt
      simp only [hlen]
      omega
    · intro j hj
      exact List.getElem?_eraseIdx_of_lt s.records idx.toNat j hj
    · intro j hj
      exact List.getElem?_eraseIdx_of_ge s.records idx.toNat j hj
  · intro h
    simp [DataStorage.remove_record, h]

/-- Claim C5, instantiated: removing index 0 from the one-record store
succeeds and empties it; removing index 2 fails and changes nothing. -/
theorem remove_record_spec_witness :
    (∃ s2, demoStore.remove_record 0 = some (true, s2) ∧
      s2.records.length + 1 = demoStore.records.length ∧
      (∀ j : Nat, j < (0 : Int).toNat → s2.records[j]? = demoStore.records[j]?) ∧
      (∀ j : Nat, (0 : Int).toNat ≤ j → s2.records[j]? = demoStore.records[j + 1]?)) ∧
    demoStore.remove_record 2 = some (false, demoStore) :=
  ⟨(remove_record_spec demoStore 0).1 (by constructor <;> decide),
   (remove_record_spec demoStore 2).2 (by decide)⟩

/-- Claim C6: `add_record` always succeeds: it grows the store by
exactly one, puts the new record at the last index, leaves every
previously stored record at its previous index, and afterwards every
valid index yields its stored record through `get_record` (value
equality on the record's fields). -/
theorem add_record_spec (s : DataStorage) (r : LatencyTestRecord) :
    (s.add_record r).records.length = s.records.length + 1 ∧
    ((s.add_record r).get_record (s.records.length : Int)).1 = GetResult.found r ∧
    (∀ i : Nat, i < s.records.length →
      (s.add_record r).records[i]? = s.records[i]?) ∧
    (∀ i : Nat, i < s.records.length + 1 →
      ∃ ri, (s.add_record r).records[i]? = some ri ∧
        ((s.add_record r).get_record (i : Int)).1 = GetResult.found ri) := by
  refine ⟨?_, ?_, ?_, ?_⟩
  · simp [DataStorage.add_record]
  · have h2 : (s.records.length : Int) <
        ((s.add_record r).records.length : Int) := by
      simp [DataStorage.add_record]
    have hsome : (s.add_record r).records[s.records.length]? = some r :=
      List.getElem?_concat_length s.records r
    simp [DataStorage.get_record, h2, hsome]
  · intro i hi
    exact List.getElem?_append_left hi
  · intro i hi
    have hlt : i < (s.add_record r).records.length := by
      simp [DataStorage.add_record]
      omega
    have hsome : (s.add_record r).records[i]? =
        some ((s.add_record r).records.get ⟨i, hlt⟩) := by
      simp [List.getElem?_eq_getElem hlt, List.get_eq_getElem]
    refine ⟨(s.add_record r).records.get ⟨i, hlt⟩, hsome, ?_⟩
    have h2 : (i : Int) < ((s.add_record r).records.length : Int) := by
      exact_mod_cast hlt
    simp [DataStorage.get_record, h2, hsome]

/-- Claim C6, instantiated: adding a second record to the one-record
store grows it to two records, the new record sits at index 1, index 0
is untouched, and index 1 reads back through `get_record`. -/
theorem add_record_spec_witness :
    (demoStore.add_record ⟨"LA", 10, PyTimeVal.dt 1⟩).records.length =
      demoStore.records.length + 1 ∧
    ((demoStore.add_record ⟨"LA", 10, PyTimeVal.dt 1⟩).get_record
        (demoStore.records.length : Int)).1 =
      GetResult.found ⟨"LA", 10, PyTimeVal.dt 1⟩ ∧
    (demoStore.add_record ⟨"LA", 10, PyTimeVal.dt 1⟩).records[(0 : Nat)]? =
      demoStore.records[(0 : Nat)]? ∧
    (∃ ri, (demoStore.add_record ⟨"LA", 10, PyTimeVal.dt 1⟩).records[(1 : Nat)]? =
        some ri ∧
      ((demoStore.add_record ⟨"LA", 10, PyTimeVal.dt 1⟩).get_record
          ((1 : Nat) : Int)).1 = GetResult.found ri) :=
  ⟨(add_record_spec demoStore ⟨"LA", 10, PyTimeVal.dt 1⟩).1,
   (add_record_spec demoStore ⟨"LA", 10, PyTimeVal.dt 1⟩).2.1,
   (add_record_spec demoStore ⟨"LA", 10, PyTimeVal.dt 1⟩).2.2.1 0 (by decide),
   (add_record_spec demoStore ⟨"LA", 10, PyTimeVal.dt 1⟩).2.2.2 1 (by decide)⟩

/-- Claim C8: `display_all` reports the no-records case exactly on the
empty store, and otherwise lists one `(index, record)` pair per stored
record, in insertion order, each record paired with its current index. -/
theorem display_all_spec (s : DataStorage) :
    (s.display_all = DisplayResult.noRecords ↔ s.records = []) ∧
    (s.records ≠ [] →
      ∃ ps, s.display_all = DisplayResult.listing ps ∧
        ps.length = s.records.length ∧
        ∀ i : Nat, ps[i]? = (s.records[i]?).map (fun r => (i, r))) := by
  constructor
  · constructor
    · intro h
      by_cases he : s.records.isEmpty
      · exact List.isEmpty_iff.mp he
      · simp [DataStorage.display_all, he] at h
    · intro h
      simp [DataStorage.display_all, h]
  · intro h
    have he : s.records.isEmpty = false := List.isEmpty_eq_false.mpr h
    refine ⟨s.records.enum, ?_, List.enum_length, ?_⟩
    · simp [DataStorage.display_all, he]
    · intro i
      exact List.getElem?_enum s.records i

/-- Claim C8, instantiated on the empty store and the one-record store. -/
theorem display_all_spec_witness :
    ((⟨[]⟩ : DataStorage).display_all = DisplayResult.noRecords) ∧
    (∃ ps, demoStore.display_all = DisplayResult.listing ps ∧
      ps.length = demoStore.records.length ∧
      ∀ i : Nat, ps[i]? = (demoStore.records[i]?).map (fun r => (i, r))) :=
  ⟨(display_all_spec ⟨[]⟩).1.mpr rfl,
   (display_all_spec demoStore).2 (by decide)⟩

/-- The object id of the `i`-th record allocated by a sequence of
constructor calls starting at id `n` is `n + i`. -/
theorem allocRecords_oid (args : List (String × Int × PyTimeVal × Nat)) :
    ∀ (n i : Nat) (o : PyRecordObj),
      (allocRecords n args)[i]? = some o → o.oid = n + i := by
  induction args with
  | nil =>
    intro n i o h
    simp [allocRecords] at h
  | cons a rest ih =>
    intro n i o h
    match i with
    | 0 =>
      simp only [allocRecords, List.getElem?_cons_zero, Option.some.injEq] at h
      subst h
      simp
    | i + 1 =>
      simp only [allocRecords, List.getElem?_cons_succ] at h
      have := ih (n + 1) i o h
      omega

/-- Claim C2 (amended): Python `==` on two records is object identity
(the class defines no `__eq__`): two allocated records compare equal iff
they are the same object, i.e. came from the same constructor call;
field-for-field equality does not make distinct records compare equal. -/
theorem recordEq_iff_same_object (n : Nat)
    (args : List (String × Int × PyTimeVal × Nat)) (i j : Nat)
    (a b : PyRecordObj)
    (ha : (allocRecords n args)[i]? = some a)
    (hb : (allocRecords n args)[j]? = some b) :
    (recordEq a b = true ↔ i = j) ∧
    (recordEq a b = true → a = b) := by
  have hai := allocRecords_oid args n i a ha
  have hbj := allocRecords_oid args n j b hb
  have hiff : recordEq a b = true ↔ i = j := by
    simp only [recordEq, beq_iff_eq, hai, hbj]
    omega
  refine ⟨hiff, fun h => ?_⟩
  have hij : i = j := hiff.mp h
  rw [hij] at ha
  rw [ha] at hb
  exact Option.some.inj hb

/-- Claim C2 (amended), instantiated: two constructor calls with the
same arguments allocate objects 0 and 1, which compare unequal. -/
theorem recordEq_iff_same_object_witness :
    (recordEq ⟨0, "NYC", 42, PyTimeVal.dt 3⟩ ⟨1, "NYC", 42, PyTimeVal.dt 3⟩ = true ↔
      (0 : Nat) = 1) ∧
    (recordEq ⟨0, "NYC", 42, PyTimeVal.dt 3⟩ ⟨1, "NYC", 42, PyTimeVal.dt 3⟩ = true →
      (⟨0, "NYC", 42, PyTimeVal.dt 3⟩ : PyRecordObj) = ⟨1, "NYC", 42, PyTimeVal.dt 3⟩) :=
  recordEq_iff_same_object 0
    [("NYC", 42, PyTimeVal.dt 3, 0), ("NYC", 42, PyTimeVal.dt 3, 0)]
    0 1 ⟨0, "NYC", 42, PyTimeVal.dt 3⟩ ⟨1, "NYC", 42, PyTimeVal.dt 3⟩
    (by decide) (by decide)

/-- Claim C2 is false as stated: two separate constructor calls with
identical arguments yield records whose `source`, `latency` and
`test_time` are pairwise equal, yet which do not compare equal. -/
theorem record_field_equality_counterexample :
    allocRecords 0
        [("NYC", 42, PyTimeVal.dt 3, 0), ("NYC", 42, PyTimeVal.dt 3, 0)] =
      [⟨0, "NYC", 42, PyTimeVal.dt 3⟩, ⟨1, "NYC", 42, PyTimeVal.dt 3⟩] ∧
    (⟨0, "NYC", 42, PyTimeVal.dt 3⟩ : PyRecordObj).fields =
      (⟨1, "NYC", 42, PyTimeVal.dt 3⟩ : PyRecordObj).fields ∧
    recordEq ⟨0, "NYC", 42, PyTimeVal.dt 3⟩ ⟨1, "NYC", 42, PyTimeVal.dt 3⟩ = false :=
  ⟨rfl, rfl, rfl⟩

/-- Claim C3 (amended): the supplied timestamp is kept exactly when it
is truthy; a falsy `test_time` (absent, or e.g. the integer 0) is
replaced by the current time. -/
theorem init_test_time_truthy (source : String) (latency : Int)
    (t : PyTimeVal) (now : Nat) :
    (t.truthy = true →
      (LatencyTestRecord.init source latency t now).test_time = t) ∧
    (t.truthy = false →
      (LatencyTestRecord.init source latency t now).test_time = PyTimeVal.dt now) := by
  constructor <;> intro h <;> simp [LatencyTestRecord.init, h]

/-- Claim C3 (amended), instantiated: a truthy supplied timestamp is
kept; an omitted one defaults to the current time. -/
theorem init_test_time_truthy_witness :
    (LatencyTestRecord.init "NYC" 42 (PyTimeVal.dt 7) 9).test_time =
      PyTimeVal.dt 7 ∧
    (LatencyTestRecord.init "NYC" 42 PyTimeVal.noneV 9).test_time =
      PyTimeVal.dt 9 :=
  ⟨(init_test_time_truthy "NYC" 42 (PyTimeVal.dt 7) 9).1 rfl,
   (init_test_time_truthy "NYC" 42 PyTimeVal.noneV 9).2 rfl⟩

/-- Claim C3 is false as stated: the integer timestamp 0 is supplied
(it is not `None`), yet the constructed record's `test_time` is the
current time, not the supplied value, because the source tests
truthiness rather than presence. -/
theorem init_test_time_counterexample :
    PyTimeVal.intV 0 ≠ PyTimeVal.noneV ∧
    (LatencyTestRecord.init "NYC" 42 (PyTimeVal.intV 0) 5).test_time =
      PyTimeVal.dt 5 ∧
    PyTimeVal.dt 5 ≠ PyTimeVal.intV 0 :=
  ⟨by decide, rfl, by decide⟩
